import Mathlib

/-!
# AFL snapshot kernel module: `src/module.c`

A shallow embedding of the orchestration layer of the AFL++ snapshot LKM: the
ioctl entry point, the `exit_group` trampoline, the locator of the system-call
table, the table patcher and the module life cycle.

Conventions.

* Pointers and `unsigned long` values are natural numbers below `2 ^ 64`;
  `NULL` is `0`.
* The loop counter `int i` of the locator is an integer in
  `[-2 ^ 31, 2 ^ 31)`; the kernel is built with `-fno-strict-overflow`, so
  `i++` and pointer arithmetic wrap around.
* Kernel memory is a partial map from the address of an aligned 8-byte word
  to its value; `none` is an unmapped (unreadable) address.
* The state owned by the collaborators that are not in `module.c` (the
  snapshot engine, the task data, the process the original handler acts on)
  is an abstract type `σ`; their functions are fields of `Env`.
* `Kernel.trace` is ghost state: every call that leaves `module.c`, and every
  patch of the table, appends one event, so that "is called exactly once" and
  "before" can be stated.
-/

namespace AflSnapshot

/-! ## Constants of the kernel headers -/

/-- Value of `ENOENT` in `errno-base.h`. -/
def ENOENT : Int := 2

/-- Value of `ENOMEM` in `errno-base.h`. -/
def ENOMEM : Int := 12

/-- Value of `EINVAL` in `errno-base.h`. -/
def EINVAL : Int := 22

/-- Largest `unsigned long long`. -/
def ULLONG_MAX : Nat := 2 ^ 64 - 1

/-- Largest errno an error pointer can carry (`linux/err.h`). -/
def MAX_ERRNO : Nat := 4095

/-- Number of the `exit_group` system call on x86-64. -/
def __NR_exit_group : Nat := 231

/-- `IS_ERR(ptr)`: the pointer lies in the last `MAX_ERRNO` addresses. -/
def IS_ERR (ptr : Nat) : Bool := decide (2 ^ 64 - MAX_ERRNO ≤ ptr)

/-- `PTR_ERR(ptr)`: the pointer read as a signed `long`. -/
def PTR_ERR (ptr : Nat) : Int := if ptr < 2 ^ 63 then (ptr : Int) else (ptr : Int) - 2 ^ 64

/-! ## Data model -/

/-- The saved user registers handed to an x86-64 system-call handler. -/
structure pt_regs where
  di : Nat
  si : Nat
  dx : Nat
  orig_ax : Nat
deriving DecidableEq, Repr

/-- What a call through `syscall_handler_t` does: it returns an `int`, or it
never comes back (the genuine `exit_group` ends the process). -/
inductive Outcome where
  | returned (v : Int)
  | no_return
deriving DecidableEq, Repr

/-- Ghost events: calls that leave `module.c` and patches of the table. -/
inductive Event where
  | do_snapshot
  | clean_snapshot
  | exit_snapshot
  | snapshot_initialize_k_funcs
  | handler_call (fn : Nat) (regs : pt_regs)
  | try_hook (func_name : String) (installed : Bool)
  | unhook_all
  | patch_syscall_table
  | unpatch_syscall_table
  | kobject_put
  | device_destroy
  | class_unregister
  | class_destroy
  | unregister_chrdev
deriving DecidableEq, Repr

/-- Result of running code that may loop or touch unmapped memory. -/
inductive Run (α : Type) where
  | done (a : α)
  | fault (address : Nat)
  | out_of_fuel
deriving DecidableEq, Repr

/-- The globals of `module.c` together with the kernel state they refer to. -/
structure Kernel (σ : Type) where
  /-- state owned by the collaborators outside `module.c` -/
  engine : σ
  /-- the array `syscall_table_ptr` designates, indexed by system-call number -/
  sct : Nat → Nat
  /-- control register 0 -/
  cr0 : Nat
  orig_sct_exit_group : Nat
  syscall_table_ptr : Nat
  /-- installed probes, oldest first: hooked function and replacement -/
  hooks : List (String × String)
  mod_kobj : Nat
  mod_major_num : Int
  mod_class : Nat
  mod_device : Nat
  trace : List Event

/-- Everything `module.c` calls but does not define. -/
structure Env (σ : Type) where
  /-- `do_snapshot()` of the engine: status and new engine state -/
  do_snapshot : σ → Int × σ
  /-- `clean_snapshot()` of the engine -/
  clean_snapshot : σ → σ
  /-- `exit_snapshot()` of the engine: `0` when a snapshot was restored -/
  exit_snapshot : σ → Int × σ
  /-- `snapshot_initialize_k_funcs()` of the engine -/
  snapshot_initialize_k_funcs : σ → Int × σ
  /-- the code behind a `syscall_handler_t` pointer -/
  handler : Nat → pt_regs → σ → Outcome × σ
  /-- `kallsyms_lookup_name`: `0` when the symbol is unknown -/
  kallsyms_lookup_name : String → Nat
  /-- kernel memory by address of an aligned 8-byte word -/
  mem : Nat → Option Nat
  /-- whether a probe can be put on the named function -/
  can_hook : String → Bool
  /-- address of the trampoline, `&sys_exit_group` -/
  sys_exit_group_addr : Nat
  /-- result of `kobject_create_and_add` -/
  kobject_create_and_add : Nat
  /-- result of `register_chrdev` -/
  register_chrdev : Int
  /-- result of `class_create` -/
  class_create : Nat
  /-- result of `device_create` -/
  device_create : Nat

/-- Append one ghost event. -/
def Kernel.log {σ : Type} (k : Kernel σ) (e : Event) : Kernel σ :=
  { k with trace := k.trace ++ [e] }

/-! ## Calls into the collaborators -/

/-- The call `do_snapshot()`. -/
def do_snapshot {σ : Type} (env : Env σ) (k : Kernel σ) : Int × Kernel σ :=
  ((env.do_snapshot k.engine).1,
   { k with engine := (env.do_snapshot k.engine).2, trace := k.trace ++ [Event.do_snapshot] })

/-- The call `clean_snapshot()`. -/
def clean_snapshot {σ : Type} (env : Env σ) (k : Kernel σ) : Kernel σ :=
  { k with engine := env.clean_snapshot k.engine, trace := k.trace ++ [Event.clean_snapshot] }

/-- The call `exit_snapshot()`. -/
def exit_snapshot {σ : Type} (env : Env σ) (k : Kernel σ) : Int × Kernel σ :=
  ((env.exit_snapshot k.engine).1,
   { k with engine := (env.exit_snapshot k.engine).2, trace := k.trace ++ [Event.exit_snapshot] })

/-- The call `snapshot_initialize_k_funcs()`. -/
def snapshot_initialize_k_funcs {σ : Type} (env : Env σ) (k : Kernel σ) : Int × Kernel σ :=
  ((env.snapshot_initialize_k_funcs k.engine).1,
   { k with engine := (env.snapshot_initialize_k_funcs k.engine).2,
            trace := k.trace ++ [Event.snapshot_initialize_k_funcs] })

/-- A call through a handler pointer: `fn(regs)`. -/
def call_handler {σ : Type} (env : Env σ) (fn : Nat) (regs : pt_regs) (k : Kernel σ) :
    Outcome × Kernel σ :=
  ((env.handler fn regs k.engine).1,
   { k with engine := (env.handler fn regs k.engine).2,
            trace := k.trace ++ [Event.handler_call fn regs] })

/-- Modelled from the spec: `try_hook` of `hook.c`, which is not among the
sources. "Given a kernel function name and a replacement function, installs a
redirection"; a failed installation leaves the set of probes as it was. -/
def try_hook {σ : Type} (env : Env σ) (func_name handler : String) (k : Kernel σ) :
    Bool × Kernel σ :=
  if env.can_hook func_name then
    (true, { k with hooks := k.hooks ++ [(func_name, handler)],
                    trace := k.trace ++ [Event.try_hook func_name true] })
  else
    (false, { k with trace := k.trace ++ [Event.try_hook func_name false] })

/-- Modelled from the spec: `unhook_all` of `hook.c`, which is not among the
sources: "bulk removal of all active redirections". -/
def unhook_all {σ : Type} (k : Kernel σ) : Kernel σ :=
  { k with hooks := [], trace := k.trace ++ [Event.unhook_all] }

/-! ## `mod_dev_ioctl` -/

/-- The ioctl entry point. The two command codes are defined in
`afl_snapshot.h`, which is not among the sources; they are parameters. -/
def mod_dev_ioctl {σ : Type} (env : Env σ)
    (AFL_SNAPSHOT_IOCTL_DO AFL_SNAPSHOT_IOCTL_CLEAN : Nat) (_filep : Nat) (cmd : Nat)
    (_arg : Nat) (k : Kernel σ) : Int × Kernel σ :=
  if cmd = AFL_SNAPSHOT_IOCTL_DO then
    do_snapshot env k
  else if cmd = AFL_SNAPSHOT_IOCTL_CLEAN then
    (0, clean_snapshot env k)
  else
    (-EINVAL, k)

/-! ## `sys_exit_group` -/

/-- The trampoline installed in the `exit_group` slot. -/
def sys_exit_group {σ : Type} (env : Env σ) (regs : pt_regs) (k : Kernel σ) :
    Outcome × Kernel σ :=
  if (exit_snapshot env k).1 ≠ 0 then
    call_handler env (exit_snapshot env k).2.orig_sct_exit_group regs (exit_snapshot env k).2
  else
    (Outcome.returned 0, (exit_snapshot env k).2)

/-! ## `get_syscall_table` -/

/-- `i + 1` on a 32-bit `int`, wrapping from `INT_MAX` to `INT_MIN`. -/
def int_succ (i : Int) : Int := (i + 1 + 2 ^ 31) % 2 ^ 32 - 2 ^ 31

/-- The address `&data[i]` of an `unsigned long long *data`: `data + 8 * i`
in 64-bit arithmetic. -/
def elem_addr (data : Nat) (i : Int) : Nat := (((data : Int) + 8 * i) % 2 ^ 64).toNat

/-- `probe_kernel_read(&d, src, sizeof(d))`: `some d` when it returns `0`,
`none` when it returns an error; it never faults. -/
def probe_kernel_read (mem : Nat → Option Nat) (src : Nat) : Option Nat := mem src

/-- The `for` loop of `get_syscall_table`, from counter value `i`; the result
is the value of `syscall_table` after the loop. One unit of fuel is one test
of the loop condition. -/
def scan_loop (mem : Nat → Option Nat) (s0 s1 data : Nat) : Nat → Int → Run Nat
  | 0, _ => Run.out_of_fuel
  | fuel + 1, i =>
    if elem_addr data i < ULLONG_MAX then
      match probe_kernel_read mem (elem_addr data i) with
      | none => scan_loop mem s0 s1 data fuel (int_succ i)
      | some d =>
        if d = s0 then
          -- `data[i + 1]` is an ordinary load
          match mem (elem_addr data (int_succ i)) with
          | none => Run.fault (elem_addr data (int_succ i))
          | some w =>
            if w = s1 then Run.done (elem_addr data i)
            else scan_loop mem s0 s1 data fuel (int_succ i)
        else scan_loop mem s0 s1 data fuel (int_succ i)
    else Run.done 0

/-- The value of `(uint64_t)x & ~0x7`: the `int` constant `~0x7` is `-8`, which
converts to `0xFFFFFFFFFFFFFFF8`. -/
def align8 (x : Nat) : Nat := x &&& 0xFFFFFFFFFFFFFFF8

/-- The locator of the system-call table. -/
def get_syscall_table {σ : Type} (env : Env σ) (fuel : Nat) : Run Nat :=
  if env.kallsyms_lookup_name "sys_call_table" ≠ 0 then
    Run.done (env.kallsyms_lookup_name "sys_call_table")
  else
    scan_loop env.mem (env.kallsyms_lookup_name "__x64_sys_read")
      (env.kallsyms_lookup_name "__x64_sys_write")
      (align8 (env.kallsyms_lookup_name "_etext")) fuel 0

/-! ## Write protection and the table patcher -/

/-- The value of `~(1 << 16)` as an `unsigned long`. -/
def WP_CLEAR_MASK : Nat := 0xFFFFFFFFFFFEFFFF

/-- The inline assembly `mov %0, %%cr0`. -/
def _write_cr0 {σ : Type} (val : Nat) (k : Kernel σ) : Kernel σ :=
  { k with cr0 := val }

/-- Sets bit 16 (WP) of CR0. -/
def enable_write_protection {σ : Type} (k : Kernel σ) : Kernel σ :=
  _write_cr0 (k.cr0 ||| (1 <<< 16)) k

/-- Clears bit 16 (WP) of CR0. -/
def disable_write_protection {σ : Type} (k : Kernel σ) : Kernel σ :=
  _write_cr0 (k.cr0 &&& WP_CLEAR_MASK) k

/-- The store `syscall_table_ptr[idx] = val`. -/
def sct_store {σ : Type} (idx val : Nat) (k : Kernel σ) : Kernel σ :=
  { k with sct := fun j => if j = idx then val else k.sct j }

/-- Saves the `exit_group` entry and puts the trampoline in its place. -/
def patch_syscall_table {σ : Type} (env : Env σ) (k : Kernel σ) : Kernel σ :=
  let k1 := disable_write_protection k
  let k2 := { k1 with orig_sct_exit_group := k1.sct __NR_exit_group }
  let k3 := sct_store __NR_exit_group env.sys_exit_group_addr k2
  (enable_write_protection k3).log Event.patch_syscall_table

/-- Puts the saved entry back. -/
def unpatch_syscall_table {σ : Type} (k : Kernel σ) : Kernel σ :=
  let k1 := disable_write_protection k
  let k2 := sct_store __NR_exit_group k1.orig_sct_exit_group k1
  (enable_write_protection k2).log Event.unpatch_syscall_table

/-! ## Module life cycle -/

/-- The second half of `mod_init`, from the first `try_hook` to the final
`return snapshot_initialize_k_funcs()`, entered once the table is patched. -/
def mod_init_hooks {σ : Type} (env : Env σ) (k : Kernel σ) : Int × Kernel σ :=
  if (try_hook env "do_wp_page" "wp_page_hook" k).1 = false then
    (-ENOENT, unpatch_syscall_table (try_hook env "do_wp_page" "wp_page_hook" k).2)
  else
    let k1 := (try_hook env "do_wp_page" "wp_page_hook" k).2
    if (try_hook env "page_add_new_anon_rmap" "do_anonymous_hook" k1).1 = false then
      (-ENOENT, unpatch_syscall_table
        (unhook_all (try_hook env "page_add_new_anon_rmap" "do_anonymous_hook" k1).2))
    else
      let k2 := (try_hook env "page_add_new_anon_rmap" "do_anonymous_hook" k1).2
      if (try_hook env "do_exit" "exit_hook" k2).1 = false then
        (-ENOENT, unpatch_syscall_table (unhook_all (try_hook env "do_exit" "exit_hook" k2).2))
      else
        snapshot_initialize_k_funcs env (try_hook env "do_exit" "exit_hook" k2).2

/-- Module entry point. The results of the registration calls come from `env`;
log output and the `devnode` callback are left out. -/
def mod_init {σ : Type} (env : Env σ) (fuel : Nat) (k : Kernel σ) : Run (Int × Kernel σ) :=
  let k1 := { k with mod_kobj := env.kobject_create_and_add }
  if k1.mod_kobj = 0 then Run.done (-ENOMEM, k1)
  else
    let k2 := { k1 with mod_major_num := env.register_chrdev }
    if k2.mod_major_num < 0 then Run.done (k2.mod_major_num, k2)
    else
      let k3 := { k2 with mod_class := env.class_create }
      if IS_ERR k3.mod_class then
        Run.done (PTR_ERR k3.mod_class, k3.log Event.unregister_chrdev)
      else
        let k4 := { k3 with mod_device := env.device_create }
        if IS_ERR k4.mod_device then
          Run.done (PTR_ERR k4.mod_device,
            (k4.log Event.class_destroy).log Event.unregister_chrdev)
        else
          match get_syscall_table env fuel with
          | Run.out_of_fuel => Run.out_of_fuel
          | Run.fault a => Run.fault a
          | Run.done p =>
            let k5 := { k4 with syscall_table_ptr := p }
            if p = 0 then Run.done (-ENOENT, k5)
            else Run.done (mod_init_hooks env (patch_syscall_table env k5))

/-- Module exit point. -/
def mod_exit {σ : Type} (k : Kernel σ) : Kernel σ :=
  let k1 := (((((k.log Event.kobject_put).log Event.device_destroy).log
    Event.class_unregister).log Event.class_destroy).log Event.unregister_chrdev)
  unpatch_syscall_table (unhook_all k1)

/-! ## Concrete inputs -/

/-- A symbol table in which `sys_call_table` is exported. -/
def sample_kallsyms (name : String) : Nat :=
  if name = "sys_call_table" then 0xffffffff820002a0
  else if name = "__x64_sys_read" then 0xffffffff812d5a10
  else if name = "__x64_sys_write" then 0xffffffff812d5b30
  else if name = "_etext" then 0xffffffff81e01234
  else 0

/-- A symbol table in which `sys_call_table` is not exported. -/
def hidden_kallsyms (name : String) : Nat :=
  if name = "sys_call_table" then 0 else sample_kallsyms name

/-- An environment in which every step of the set-up succeeds. The engine
state is the number of armed snapshots of the calling task. -/
def sample_env : Env Nat where
  do_snapshot := fun s => (0, s + 1)
  clean_snapshot := fun _ => 0
  exit_snapshot := fun s => if s = 0 then (1, 0) else (0, s)
  snapshot_initialize_k_funcs := fun s => (0, s)
  handler := fun _ _ s => (Outcome.no_return, s)
  kallsyms_lookup_name := sample_kallsyms
  mem := fun _ => none
  can_hook := fun _ => true
  sys_exit_group_addr := 0xffffffffc0a01000
  kobject_create_and_add := 0xffff888103a4c000
  register_chrdev := 240
  class_create := 0xffff888103a4d000
  device_create := 0xffff888103a4e000

/-- A kernel before the module is loaded: no probe, no saved handler. -/
def sample_kernel : Kernel Nat where
  engine := 0
  sct := fun j => 0xffffffff81080000 + 0x40 * j
  cr0 := 0x80050033
  orig_sct_exit_group := 0
  syscall_table_ptr := 0
  hooks := []
  mod_kobj := 0
  mod_major_num := 0
  mod_class := 0
  mod_device := 0
  trace := []

/-- Registers of a task calling `exit_group(0)`. -/
def sample_regs : pt_regs where
  di := 0
  si := 0
  dx := 0
  orig_ax := 231

/-- The same kernel with one snapshot armed for the calling task. -/
def armed_kernel : Kernel Nat := { sample_kernel with engine := 1 }

/-- No export of `sys_call_table`; the kernel mapping is readable and holds
zero words only, so the pattern is nowhere. -/
def no_pattern_env : Env Nat :=
  { sample_env with
    kallsyms_lookup_name := hidden_kallsyms
    mem := fun a => if 0xffffffff80000000 ≤ a then some 0 else none }

/-- No export of `sys_call_table`; the kernel mapping ends at
`0xffffffff82000000` and its last word holds the address of `__x64_sys_read`. -/
def edge_env : Env Nat :=
  { sample_env with
    kallsyms_lookup_name := hidden_kallsyms
    mem := fun a =>
      if a = 0xffffffff81fffff8 then some 0xffffffff812d5a10
      else if 0xffffffff80000000 ≤ a ∧ a < 0xffffffff82000000 then some 0
      else none }

/-- No export of `sys_call_table`; the kernel mapping holds zero words and the
two addresses are stored next to each other in low memory, at `0x10000`. -/
def low_env : Env Nat :=
  { sample_env with
    kallsyms_lookup_name := hidden_kallsyms
    mem := fun a =>
      if a = 0x10000 then some 0xffffffff812d5a10
      else if a = 0x10008 then some 0xffffffff812d5b30
      else if 0xffffffff80000000 ≤ a then some 0
      else none }

/-- No export of `sys_call_table`; the kernel mapping holds zero words but for
the table itself at `0xffffffff820002a0`, whose entries 0 and 1 are the
addresses of `__x64_sys_read` and `__x64_sys_write`. -/
def table_env : Env Nat :=
  { sample_env with
    kallsyms_lookup_name := hidden_kallsyms
    mem := fun a =>
      if a = 0xffffffff820002a0 then some 0xffffffff812d5a10
      else if a = 0xffffffff820002a8 then some 0xffffffff812d5b30
      else if 0xffffffff80000000 ≤ a then some 0
      else none }

/-- Every step succeeds until `snapshot_initialize_k_funcs`, which cannot
resolve its symbols and returns `-ENOENT`. -/
def kfuncs_fail_env : Env Nat :=
  { sample_env with snapshot_initialize_k_funcs := fun s => (-ENOENT, s) }

/-- The probe on `do_wp_page` can be installed, no other probe can. -/
def second_probe_fail_env : Env Nat :=
  { sample_env with can_hook := fun name => decide (name = "do_wp_page") }

/-- The pattern the scan looks for, at counter value `x`: the word at
`&data[x]` is `s0` and the word at `&data[x + 1]` is `s1`. -/
def pattern_at (mem : Nat → Option Nat) (s0 s1 data : Nat) (x : Int) : Prop :=
  mem (elem_addr data x) = some s0 ∧ mem (elem_addr data (int_succ x)) = some s1

/-! ## Auxiliary facts -/

theorem wp_bit_of_set (a : Nat) : (a ||| (1 <<< 16)).testBit 16 = true := by
  rw [Nat.testBit_lor]
  have h : (1 <<< 16 : Nat).testBit 16 = true := by decide
  rw [h, Bool.or_true]

theorem other_bits_of_clear_set (a i : Nat) (h : a < 2 ^ 64) (hi : i ≠ 16) :
    (((a &&& WP_CLEAR_MASK) ||| (1 <<< 16)) ||| (1 <<< 16)).testBit i = a.testBit i ∧
    ((a &&& WP_CLEAR_MASK) ||| (1 <<< 16)).testBit i = a.testBit i := by
  have h1 : (1 <<< 16 : Nat).testBit i = false := by
    rw [show (1 <<< 16 : Nat) = 2 ^ 16 from rfl, Nat.testBit_two_pow]
    simp; omega
  have h2 : ((a &&& WP_CLEAR_MASK) ||| (1 <<< 16)).testBit i = a.testBit i := by
    rw [Nat.testBit_lor, Nat.testBit_land, h1, Bool.or_false]
    by_cases hlt : i < 64
    · have hm : WP_CLEAR_MASK.testBit i = true := by
        unfold WP_CLEAR_MASK
        interval_cases i <;> first | rfl | exact absurd rfl hi
      rw [hm, Bool.and_true]
    · have ha : a.testBit i = false :=
        Nat.testBit_lt_two_pow
          (lt_of_lt_of_le h (Nat.pow_le_pow_right (by norm_num) (by omega)))
      rw [ha, Bool.false_and]
  refine ⟨?_, h2⟩
  rw [Nat.testBit_lor, h2, h1, Bool.or_false]

theorem align8_mod8 (x : Nat) : align8 x % 8 = 0 := by
  unfold align8
  have h1 : (x &&& 0xFFFFFFFFFFFFFFF8) % 8 = (x &&& 0xFFFFFFFFFFFFFFF8) &&& 7 :=
    (Nat.and_pow_two_sub_one_eq_mod _ 3).symm
  have h2 : (0xFFFFFFFFFFFFFFF8 &&& 7 : Nat) = 0 := by decide
  rw [h1, Nat.land_assoc, h2]
  exact Nat.and_zero x

/-- The loop condition of the scan holds at every aligned address: an aligned
address is never `ULLONG_MAX`. -/
theorem elem_addr_lt_max (data : Nat) (i : Int) (hd : data % 8 = 0) :
    elem_addr data i < ULLONG_MAX := by
  unfold elem_addr ULLONG_MAX
  omega

theorem int_succ_of_lt (i : Int) (h0 : 0 ≤ i) (h1 : i + 1 < 2 ^ 31) : int_succ i = i + 1 := by
  unfold int_succ
  omega

/-- Without a readable word equal to `s0` the loop never leaves. -/
theorem scan_loop_without_s0 (mem : Nat → Option Nat) (s0 s1 data : Nat) (hd : data % 8 = 0)
    (hmem : ∀ a, mem a ≠ some s0) :
    ∀ (fuel : Nat) (i : Int), scan_loop mem s0 s1 data fuel i = Run.out_of_fuel := by
  intro fuel
  induction fuel with
  | zero => intro i; rfl
  | succ n ih =>
    intro i
    unfold scan_loop
    rw [if_pos (elem_addr_lt_max data i hd)]
    unfold probe_kernel_read
    cases hm : mem (elem_addr data i) with
    | none => exact ih _
    | some d =>
      have hne : d ≠ s0 := fun h => hmem (elem_addr data i) (h ▸ hm)
      simp only [if_neg hne]
      exact ih _

/-- While no word equal to `s0` is followed by a word equal to `s1`, the loop
never produces a value: it runs on, or it faults. -/
theorem scan_loop_never_done (mem : Nat → Option Nat) (s0 s1 data : Nat) (hd : data % 8 = 0)
    (hmem : ∀ i : Int, mem (elem_addr data i) = some s0 →
      mem (elem_addr data (int_succ i)) ≠ some s1) :
    ∀ (fuel : Nat) (i : Int) (p : Nat), scan_loop mem s0 s1 data fuel i ≠ Run.done p := by
  intro fuel
  induction fuel with
  | zero => intro i p h; simp [scan_loop] at h
  | succ n ih =>
    intro i p
    unfold scan_loop
    rw [if_pos (elem_addr_lt_max data i hd)]
    unfold probe_kernel_read
    cases hm : mem (elem_addr data i) with
    | none => exact ih _ p
    | some d =>
      by_cases hds : d = s0
      · simp only [if_pos hds]
        cases hw : mem (elem_addr data (int_succ i)) with
        | none => simp
        | some w =>
          have hne : w ≠ s1 := fun h => hmem i (hds ▸ hm) (h ▸ hw)
          simp only [if_neg hne]
          exact ih _ p
      · simp only [if_neg hds]
        exact ih _ p

/-- Words other than `s0`, and unreadable words, are passed one unit of fuel at
a time. -/
theorem scan_loop_skip (mem : Nat → Option Nat) (s0 s1 data : Nat) (hd : data % 8 = 0) :
    ∀ (n fuel : Nat) (i : Int), 0 ≤ i → i + n < 2 ^ 31 →
      (∀ j : Nat, j < n → mem (elem_addr data (i + j)) ≠ some s0) →
      scan_loop mem s0 s1 data (fuel + n) i = scan_loop mem s0 s1 data fuel (i + n) := by
  intro n
  induction n with
  | zero => intro fuel i _ _ _; simp
  | succ n ih =>
    intro fuel i h0 h1 hmem
    have hstep : scan_loop mem s0 s1 data (fuel + (n + 1)) i =
        scan_loop mem s0 s1 data (fuel + n) (int_succ i) := by
      rw [show fuel + (n + 1) = (fuel + n) + 1 from rfl]
      conv_lhs => unfold scan_loop
      rw [if_pos (elem_addr_lt_max data i hd)]
      unfold probe_kernel_read
      have hm := hmem 0 (Nat.succ_pos n)
      simp only [Nat.cast_zero, add_zero] at hm
      cases hv : mem (elem_addr data i) with
      | none => rfl
      | some d =>
        have hne : d ≠ s0 := fun h => hm (h ▸ hv)
        simp only [if_neg hne]
    have hs : int_succ i = i + 1 := int_succ_of_lt i h0 (by push_cast at h1; omega)
    rw [hstep, hs, ih fuel (i + 1) (by omega) (by push_cast at h1 ⊢; omega)]
    · congr 1
      push_cast
      ring
    · intro j hj
      have hm := hmem (j + 1) (by omega)
      have he : i + 1 + (j : Int) = i + ((j + 1 : Nat) : Int) := by push_cast; ring
      rw [he]
      exact hm

theorem int_succ_range (i : Int) : -2 ^ 31 ≤ int_succ i ∧ int_succ i < 2 ^ 31 := by
  unfold int_succ; omega

/-- Closed form of the counter after `m` increments. -/
theorem int_succ_iterate (m : Nat) : ∀ i : Int, -2 ^ 31 ≤ i → i < 2 ^ 31 →
    int_succ^[m] i = (i + m + 2 ^ 31) % 2 ^ 32 - 2 ^ 31 := by
  induction m with
  | zero => intro i h1 h2; simp; omega
  | succ n ih =>
    intro i h1 h2
    rw [Function.iterate_succ_apply, ih _ (int_succ_range i).1 (int_succ_range i).2]
    unfold int_succ
    push_cast
    omega

/-- A value returned by the loop is the address of the first counter value, in
the order the loop visits them, at which the pattern is read. -/
theorem scan_loop_done_first (mem : Nat → Option Nat) (s0 s1 data : Nat) (hd : data % 8 = 0)
    (p : Nat) : ∀ (fuel : Nat) (i : Int), scan_loop mem s0 s1 data fuel i = Run.done p →
      ∃ m, m < fuel ∧ p = elem_addr data (int_succ^[m] i) ∧
        pattern_at mem s0 s1 data (int_succ^[m] i) ∧
        ∀ n, n < m → ¬ pattern_at mem s0 s1 data (int_succ^[n] i) := by
  intro fuel
  induction fuel with
  | zero => intro i h; simp [scan_loop] at h
  | succ f ih =>
    intro i h
    have later : scan_loop mem s0 s1 data f (int_succ i) = Run.done p →
        ¬ pattern_at mem s0 s1 data i →
        ∃ m, m < f + 1 ∧ p = elem_addr data (int_succ^[m] i) ∧
          pattern_at mem s0 s1 data (int_succ^[m] i) ∧
          ∀ n, n < m → ¬ pattern_at mem s0 s1 data (int_succ^[n] i) := by
      intro hrec hno
      obtain ⟨m, hm, hp, hpat, hmin⟩ := ih (int_succ i) hrec
      refine ⟨m + 1, by omega, ?_, ?_, ?_⟩
      · rw [Function.iterate_succ_apply]; exact hp
      · rw [Function.iterate_succ_apply]; exact hpat
      · intro n hn
        cases n with
        | zero => exact hno
        | succ n =>
          rw [Function.iterate_succ_apply]
          exact hmin n (by omega)
    unfold scan_loop at h
    rw [if_pos (elem_addr_lt_max data i hd)] at h
    unfold probe_kernel_read at h
    cases hm : mem (elem_addr data i) with
    | none =>
      rw [hm] at h
      exact later h (fun hpat => by rw [hpat.1] at hm; cases hm)
    | some d =>
      rw [hm] at h
      by_cases hds : d = s0
      · simp only [if_pos hds] at h
        cases hw : mem (elem_addr data (int_succ i)) with
        | none => rw [hw] at h; cases h
        | some w =>
          rw [hw] at h
          by_cases hws : w = s1
          · simp only [if_pos hws] at h
            refine ⟨0, Nat.succ_pos f, ?_, ?_, ?_⟩
            · exact (Run.done.inj h).symm
            · show pattern_at mem s0 s1 data i
              exact ⟨by rw [hm, hds], by rw [hw, hws]⟩
            · intro n hn; omega
          · simp only [if_neg hws] at h
            exact later h (fun hpat => by
              rw [hpat.2] at hw; exact hws (Option.some.inj hw).symm)
      · simp only [if_neg hds] at h
        exact later h (fun hpat => by
          rw [hpat.1] at hm; exact hds (Option.some.inj hm).symm)

/-- The scan read as the claim reads it, for a result the counter reaches
before any wrap-around: the result is aligned, it lies at or above the start,
its word is `s0` and the next word is `s1`, and no lower aligned address at or
above the start carries the pattern. -/
theorem scan_loop_lowest_without_wrap (mem : Nat → Option Nat) (s0 s1 data : Nat)
    (hd : data % 8 = 0) (fuel p : Nat)
    (hret : scan_loop mem s0 s1 data fuel 0 = Run.done p)
    (hlo : data ≤ p) (hspan : p - data < 8 * (2 ^ 31 - 1)) (hhi : p + 8 < 2 ^ 64) :
    p % 8 = 0 ∧ mem p = some s0 ∧ mem (p + 8) = some s1 ∧
    ∀ a, a % 8 = 0 → data ≤ a → a < p → ¬ (mem a = some s0 ∧ mem (a + 8) = some s1) := by
  obtain ⟨m, _, hp, hpat, hmin⟩ := scan_loop_done_first mem s0 s1 data hd p fuel 0 hret
  have hcf : ∀ n : Nat, int_succ^[n] (0 : Int) = ((0 : Int) + n + 2 ^ 31) % 2 ^ 32 - 2 ^ 31 :=
    fun n => int_succ_iterate n 0 (by norm_num) (by norm_num)
  -- the match is found in the first round of the counter
  have hm32 : m < 2 ^ 32 := by
    by_contra hge
    have hlt : m - 2 ^ 32 < m := by omega
    apply hmin (m - 2 ^ 32) hlt
    have : int_succ^[m - 2 ^ 32] (0 : Int) = int_succ^[m] (0 : Int) := by
      rw [hcf, hcf]
      have : ((m - 2 ^ 32 : Nat) : Int) = (m : Int) - 2 ^ 32 := by
        rw [Nat.cast_sub (by omega)]; norm_num
      rw [this]
      omega
    rw [this]
    exact hpat
  -- and before the counter or the address wraps
  have hx : int_succ^[m] (0 : Int) = (m : Int) ∧ data + 8 * m = p := by
    rw [hcf m] at hp ⊢
    unfold elem_addr at hp
    omega
  have hidx : ∀ n : Nat, n ≤ m + 1 → n < 2 ^ 31 → int_succ^[n] (0 : Int) = (n : Int) := by
    intro n _ hn
    rw [hcf n]
    omega
  have hsucc : ∀ n : Nat, n ≤ m → int_succ (n : Int) = ((n + 1 : Nat) : Int) := by
    intro n hn
    unfold int_succ
    push_cast
    omega
  have haddr : ∀ n : Nat, n ≤ m + 1 → elem_addr data (n : Int) = data + 8 * n := by
    intro n hn
    unfold elem_addr
    omega
  have hpat_iff : ∀ n : Nat, n ≤ m → (pattern_at mem s0 s1 data (int_succ^[n] (0 : Int)) ↔
      (mem (data + 8 * n) = some s0 ∧ mem (data + 8 * n + 8) = some s1)) := by
    intro n hn
    unfold pattern_at
    rw [hidx n (by omega) (by omega), hsucc n hn, haddr n (by omega), haddr (n + 1) (by omega)]
    rw [show data + 8 * (n + 1) = data + 8 * n + 8 from by ring]
  have hfound := (hpat_iff m (le_refl m)).1 hpat
  rw [hx.2] at hfound
  refine ⟨by omega, hfound.1, hfound.2, ?_⟩
  intro a ha hda hap hmatch
  have hn : (a - data) / 8 < m := by omega
  apply hmin ((a - data) / 8) hn
  rw [hpat_iff _ (by omega)]
  have : data + 8 * ((a - data) / 8) = a := by omega
  rw [this]
  exact hmatch


/-- With the set-up successful up to the location of the table, `mod_init`
patches the table and goes on to the probes. -/
theorem mod_init_reaches_hooks {σ : Type} (env : Env σ) (fuel : Nat) (k : Kernel σ)
    (p : Nat) (hkobj : env.kobject_create_and_add ≠ 0) (hchr : 0 ≤ env.register_chrdev)
    (hclass : IS_ERR env.class_create = false) (hdev : IS_ERR env.device_create = false)
    (htab : get_syscall_table env fuel = Run.done p) (hp : p ≠ 0) :
    mod_init env fuel k = Run.done (mod_init_hooks env (patch_syscall_table env
      { k with mod_kobj := env.kobject_create_and_add, mod_major_num := env.register_chrdev,
               mod_class := env.class_create, mod_device := env.device_create,
               syscall_table_ptr := p })) := by
  have hchr2 : ¬ env.register_chrdev < 0 := not_lt.mpr hchr
  unfold mod_init
  simp only [hkobj, hchr2, hclass, hdev, htab, hp, if_false, Bool.false_eq_true]

/-- What a failing probe leaves behind, from any state in which no probe is
installed. -/
theorem mod_init_hooks_failure {σ : Type} (env : Env σ) (k : Kernel σ) (hhooks : k.hooks = [])
    (hfail : env.can_hook "do_wp_page" = false ∨
      env.can_hook "page_add_new_anon_rmap" = false ∨ env.can_hook "do_exit" = false) :
    (mod_init_hooks env k).1 = -ENOENT ∧
    (mod_init_hooks env k).2.hooks = [] ∧
    (∀ j, (mod_init_hooks env k).2.sct j =
      if j = __NR_exit_group then k.orig_sct_exit_group else k.sct j) ∧
    ((mod_init_hooks env k).2.trace = k.trace ++
        [Event.try_hook "do_wp_page" false, Event.unpatch_syscall_table] ∨
     (mod_init_hooks env k).2.trace = k.trace ++
        [Event.try_hook "do_wp_page" true, Event.try_hook "page_add_new_anon_rmap" false,
         Event.unhook_all, Event.unpatch_syscall_table] ∨
     (mod_init_hooks env k).2.trace = k.trace ++
        [Event.try_hook "do_wp_page" true, Event.try_hook "page_add_new_anon_rmap" true,
         Event.try_hook "do_exit" false, Event.unhook_all, Event.unpatch_syscall_table]) := by
  cases h1 : env.can_hook "do_wp_page" with
  | false =>
    refine ⟨?_, ?_, ?_, Or.inl ?_⟩ <;>
      simp [mod_init_hooks, try_hook, h1, unpatch_syscall_table, sct_store,
        enable_write_protection, disable_write_protection, _write_cr0, Kernel.log, hhooks]
  | true =>
    cases h2 : env.can_hook "page_add_new_anon_rmap" with
    | false =>
      refine ⟨?_, ?_, ?_, Or.inr (Or.inl ?_)⟩ <;>
        simp [mod_init_hooks, try_hook, h1, h2, unhook_all, unpatch_syscall_table, sct_store,
          enable_write_protection, disable_write_protection, _write_cr0, Kernel.log]
    | true =>
      have h3 : env.can_hook "do_exit" = false := by
        rcases hfail with h | h | h
        · rw [h1] at h; cases h
        · rw [h2] at h; cases h
        · exact h
      refine ⟨?_, ?_, ?_, Or.inr (Or.inr ?_)⟩ <;>
        simp [mod_init_hooks, try_hook, h1, h2, h3, unhook_all, unpatch_syscall_table,
          sct_store, enable_write_protection, disable_write_protection, _write_cr0, Kernel.log]

theorem patch_syscall_table_fields {σ : Type} (env : Env σ) (k : Kernel σ) :
    (patch_syscall_table env k).hooks = k.hooks ∧
    (patch_syscall_table env k).trace = k.trace ++ [Event.patch_syscall_table] ∧
    (patch_syscall_table env k).orig_sct_exit_group = k.sct __NR_exit_group ∧
    (∀ j, (patch_syscall_table env k).sct j =
      if j = __NR_exit_group then env.sys_exit_group_addr else k.sct j) := by
  refine ⟨rfl, rfl, rfl, fun j => rfl⟩

/-- A failing probe after the patch: the status is `-ENOENT`, no probe is left,
the table is as before the patch, and `unhook_all` precedes the unpatch when a
probe had been installed. -/
theorem mod_init_hooks_after_patch_failure {σ : Type} (env : Env σ) (k : Kernel σ)
    (hhooks : k.hooks = [])
    (hfail : env.can_hook "do_wp_page" = false ∨
      env.can_hook "page_add_new_anon_rmap" = false ∨ env.can_hook "do_exit" = false) :
    (mod_init_hooks env (patch_syscall_table env k)).1 = -ENOENT ∧
    (mod_init_hooks env (patch_syscall_table env k)).2.hooks = [] ∧
    (∀ j, (mod_init_hooks env (patch_syscall_table env k)).2.sct j = k.sct j) ∧
    ((mod_init_hooks env (patch_syscall_table env k)).2.trace =
        k.trace ++ [Event.patch_syscall_table,
          Event.try_hook "do_wp_page" false, Event.unpatch_syscall_table] ∨
     (mod_init_hooks env (patch_syscall_table env k)).2.trace =
        k.trace ++ [Event.patch_syscall_table,
          Event.try_hook "do_wp_page" true, Event.try_hook "page_add_new_anon_rmap" false,
          Event.unhook_all, Event.unpatch_syscall_table] ∨
     (mod_init_hooks env (patch_syscall_table env k)).2.trace =
        k.trace ++ [Event.patch_syscall_table,
          Event.try_hook "do_wp_page" true, Event.try_hook "page_add_new_anon_rmap" true,
          Event.try_hook "do_exit" false, Event.unhook_all, Event.unpatch_syscall_table]) := by
  obtain ⟨hpk, hpt, hpo, hps⟩ := patch_syscall_table_fields env k
  obtain ⟨hr, hh, hs, ht⟩ :=
    mod_init_hooks_failure env (patch_syscall_table env k) (hpk.trans hhooks) hfail
  refine ⟨hr, hh, ?_, ?_⟩
  · intro j
    rw [hs j, hpo, hps j]
    by_cases hj : j = __NR_exit_group
    · rw [if_pos hj, hj]
    · rw [if_neg hj, if_neg hj]
  · rw [hpt] at ht
    simpa [List.append_assoc] using ht

/-- With the three probes installable, the last step of `mod_init` is the call
of `snapshot_initialize_k_funcs`, whose status is returned as it is: nothing
is unwound after it. -/
theorem mod_init_hooks_success {σ : Type} (env : Env σ) (k : Kernel σ)
    (h1 : env.can_hook "do_wp_page" = true)
    (h2 : env.can_hook "page_add_new_anon_rmap" = true)
    (h3 : env.can_hook "do_exit" = true) :
    (mod_init_hooks env k).1 = (env.snapshot_initialize_k_funcs k.engine).1 ∧
    (mod_init_hooks env k).2.hooks = k.hooks ++ [("do_wp_page", "wp_page_hook"),
      ("page_add_new_anon_rmap", "do_anonymous_hook"), ("do_exit", "exit_hook")] ∧
    (mod_init_hooks env k).2.sct = k.sct ∧
    (mod_init_hooks env k).2.orig_sct_exit_group = k.orig_sct_exit_group ∧
    (mod_init_hooks env k).2.trace = k.trace ++ [Event.try_hook "do_wp_page" true,
      Event.try_hook "page_add_new_anon_rmap" true, Event.try_hook "do_exit" true,
      Event.snapshot_initialize_k_funcs] := by
  refine ⟨?_, ?_, ?_, ?_, ?_⟩ <;>
    simp [mod_init_hooks, try_hook, h1, h2, h3, snapshot_initialize_k_funcs]

/-- Every returning run of `mod_init` on a fresh module either leaves no probe
and the table as it was, or went through all three probes and returns the
status of `snapshot_initialize_k_funcs` with the patch and the probes in
place. -/
theorem mod_init_unwound_unless_last_step {σ : Type} (env : Env σ) (fuel : Nat)
    (k : Kernel σ) (r : Int) (kf : Kernel σ) (hhooks : k.hooks = [])
    (hret : mod_init env fuel k = Run.done (r, kf)) :
    (kf.hooks = [] ∧ ∀ j, kf.sct j = k.sct j) ∨
    (r = (env.snapshot_initialize_k_funcs k.engine).1 ∧
     kf.sct __NR_exit_group = env.sys_exit_group_addr ∧
     kf.hooks = [("do_wp_page", "wp_page_hook"),
       ("page_add_new_anon_rmap", "do_anonymous_hook"), ("do_exit", "exit_hook")]) := by
  by_cases hkobj : env.kobject_create_and_add = 0
  · left
    simp only [mod_init, hkobj, if_true, Run.done.injEq, Prod.mk.injEq] at hret
    rw [← hret.2]
    exact ⟨hhooks, fun _ => rfl⟩
  by_cases hchr : env.register_chrdev < 0
  · left
    simp only [mod_init, hkobj, hchr, if_true, if_false, Run.done.injEq, Prod.mk.injEq] at hret
    rw [← hret.2]
    exact ⟨hhooks, fun _ => rfl⟩
  by_cases hclass0 : IS_ERR env.class_create = true
  · left
    simp only [mod_init, hkobj, hchr, hclass0, if_true, if_false, Run.done.injEq,
      Prod.mk.injEq] at hret
    rw [← hret.2]
    exact ⟨hhooks, fun _ => rfl⟩
  have hclass : IS_ERR env.class_create = false := by simpa using hclass0
  by_cases hdev0 : IS_ERR env.device_create = true
  · left
    simp only [mod_init, hkobj, hchr, hclass, hdev0, if_true, if_false, Bool.false_eq_true,
      Run.done.injEq, Prod.mk.injEq] at hret
    rw [← hret.2]
    exact ⟨hhooks, fun _ => rfl⟩
  have hdev : IS_ERR env.device_create = false := by simpa using hdev0
  cases htab : get_syscall_table env fuel with
  | out_of_fuel =>
    simp [mod_init, hkobj, hchr, hclass, hdev, htab] at hret
  | fault a =>
    simp [mod_init, hkobj, hchr, hclass, hdev, htab] at hret
  | done p =>
    by_cases hp : p = 0
    · left
      simp only [mod_init, hkobj, hchr, hclass, hdev, htab, hp, if_true, if_false,
        Bool.false_eq_true, Run.done.injEq, Prod.mk.injEq] at hret
      rw [← hret.2]
      exact ⟨hhooks, fun _ => rfl⟩
    · have hinit := mod_init_reaches_hooks env fuel k p hkobj (not_lt.mp hchr)
        hclass hdev htab hp
      rw [hinit] at hret
      have hr : (mod_init_hooks env (patch_syscall_table env
          { k with mod_kobj := env.kobject_create_and_add,
                   mod_major_num := env.register_chrdev,
                   mod_class := env.class_create,
                   mod_device := env.device_create,
                   syscall_table_ptr := p })) = (r, kf) := Run.done.inj hret
      by_cases hall : env.can_hook "do_wp_page" = true ∧
          env.can_hook "page_add_new_anon_rmap" = true ∧ env.can_hook "do_exit" = true
      · right
        obtain ⟨e1, eh, es, _, _⟩ := mod_init_hooks_success env (patch_syscall_table env
          { k with mod_kobj := env.kobject_create_and_add,
                   mod_major_num := env.register_chrdev,
                   mod_class := env.class_create,
                   mod_device := env.device_create,
                   syscall_table_ptr := p }) hall.1 hall.2.1 hall.2.2
        rw [hr] at e1 eh es
        have es2 : kf.sct = _ := es
        have eh2 : kf.hooks = _ := eh
        refine ⟨e1, ?_, ?_⟩
        · rw [es2]
          rfl
        · rw [eh2]
          show k.hooks ++ _ = _
          rw [hhooks]
          rfl
      · left
        have hfail : env.can_hook "do_wp_page" = false ∨
            env.can_hook "page_add_new_anon_rmap" = false ∨
            env.can_hook "do_exit" = false := by
          by_contra hcon
          simp only [not_or, Bool.not_eq_false] at hcon
          exact hall hcon
        obtain ⟨_, f2, f3, _⟩ := mod_init_hooks_after_patch_failure env
          { k with mod_kobj := env.kobject_create_and_add,
                   mod_major_num := env.register_chrdev,
                   mod_class := env.class_create,
                   mod_device := env.device_create,
                   syscall_table_ptr := p } hhooks hfail
        rw [hr] at f2 f3
        exact ⟨f2, f3⟩

/-- A successful `mod_init` followed by `mod_exit`: no probe is left and every
entry of the table is as before the module was loaded. -/
theorem mod_init_mod_exit_restores {σ : Type} (env : Env σ) (fuel : Nat) (k : Kernel σ)
    (p : Nat) (hkobj : env.kobject_create_and_add ≠ 0) (hchr : 0 ≤ env.register_chrdev)
    (hclass : IS_ERR env.class_create = false) (hdev : IS_ERR env.device_create = false)
    (htab : get_syscall_table env fuel = Run.done p) (hp : p ≠ 0)
    (h1 : env.can_hook "do_wp_page" = true)
    (h2 : env.can_hook "page_add_new_anon_rmap" = true)
    (h3 : env.can_hook "do_exit" = true) :
    ∃ k1, mod_init env fuel k = Run.done ((env.snapshot_initialize_k_funcs k.engine).1, k1) ∧
      (mod_exit k1).hooks = [] ∧ ∀ j, (mod_exit k1).sct j = k.sct j := by
  have hinit := mod_init_reaches_hooks env fuel k p hkobj hchr hclass hdev htab hp
  obtain ⟨e1, _, e3, e4, _⟩ := mod_init_hooks_success env (patch_syscall_table env
    { k with mod_kobj := env.kobject_create_and_add,
             mod_major_num := env.register_chrdev,
             mod_class := env.class_create,
             mod_device := env.device_create,
             syscall_table_ptr := p }) h1 h2 h3
  refine ⟨_, hinit.trans (congrArg Run.done (Prod.ext e1 rfl)), rfl, ?_⟩
  intro j
  have hx : ∀ (kk : Kernel σ) (j : Nat), (mod_exit kk).sct j =
      if j = __NR_exit_group then kk.orig_sct_exit_group else kk.sct j := by
    intro kk j
    simp [mod_exit, unpatch_syscall_table, unhook_all, sct_store, enable_write_protection,
      disable_write_protection, _write_cr0, Kernel.log]
  obtain ⟨_, _, hpo, hps⟩ := patch_syscall_table_fields env
    { k with mod_kobj := env.kobject_create_and_add,
             mod_major_num := env.register_chrdev,
             mod_class := env.class_create,
             mod_device := env.device_create,
             syscall_table_ptr := p }
  rw [hx, e3, e4, hpo, hps j]
  by_cases hj : j = __NR_exit_group
  · rw [if_pos hj, hj]
  · rw [if_neg hj, if_neg hj]

/-! ## The control channel -/

/-- C1: a command code that is neither AFL_SNAPSHOT_IOCTL_DO nor
AFL_SNAPSHOT_IOCTL_CLEAN makes `mod_dev_ioctl` return `-EINVAL`, whatever the
argument; the whole state, ghost trace included, is the state before the
call, so neither `do_snapshot` nor `clean_snapshot` was invoked and neither the
engine state nor a global of the module changed. -/
theorem mod_dev_ioctl_unknown_cmd {σ : Type} (env : Env σ) (DO CLEAN filep cmd arg : Nat)
    (k : Kernel σ) (hdo : cmd ≠ DO) (hclean : cmd ≠ CLEAN) :
    mod_dev_ioctl env DO CLEAN filep cmd arg k = (-EINVAL, k) ∧
    (mod_dev_ioctl env DO CLEAN filep cmd arg k).2.trace = k.trace ∧
    (mod_dev_ioctl env DO CLEAN filep cmd arg k).2.engine = k.engine := by
  have h : mod_dev_ioctl env DO CLEAN filep cmd arg k = (-EINVAL, k) := by
    unfold mod_dev_ioctl
    rw [if_neg hdo, if_neg hclean]
  rw [h]
  exact ⟨rfl, rfl, rfl⟩

theorem mod_dev_ioctl_unknown_cmd_witness :
    (3 ≠ 1 ∧ 3 ≠ 2) ∧
    (mod_dev_ioctl sample_env 1 2 0 3 7 sample_kernel = (-EINVAL, sample_kernel) ∧
     (mod_dev_ioctl sample_env 1 2 0 3 7 sample_kernel).2.trace = sample_kernel.trace ∧
     (mod_dev_ioctl sample_env 1 2 0 3 7 sample_kernel).2.engine = sample_kernel.engine) :=
  ⟨⟨by decide, by decide⟩,
   mod_dev_ioctl_unknown_cmd sample_env 1 2 0 3 7 sample_kernel (by decide) (by decide)⟩

/-- C6: with the command AFL_SNAPSHOT_IOCTL_CLEAN, whatever the engine state
and the argument, `mod_dev_ioctl` returns `0`; `clean_snapshot` is the one call
it makes (one event is appended to the trace) and the engine state is the one
`clean_snapshot` leaves. The two command codes are distinct, as the labels of
one `switch` must be. -/
theorem mod_dev_ioctl_clean {σ : Type} (env : Env σ) (DO CLEAN filep arg : Nat)
    (k : Kernel σ) (hne : CLEAN ≠ DO) :
    (mod_dev_ioctl env DO CLEAN filep CLEAN arg k).1 = 0 ∧
    (mod_dev_ioctl env DO CLEAN filep CLEAN arg k).2.trace =
      k.trace ++ [Event.clean_snapshot] ∧
    (mod_dev_ioctl env DO CLEAN filep CLEAN arg k).2.engine = env.clean_snapshot k.engine := by
  have h : mod_dev_ioctl env DO CLEAN filep CLEAN arg k = (0, clean_snapshot env k) := by
    unfold mod_dev_ioctl
    rw [if_neg hne, if_pos rfl]
  rw [h]
  exact ⟨rfl, rfl, rfl⟩

theorem mod_dev_ioctl_clean_witness :
    2 ≠ 1 ∧
    ((mod_dev_ioctl sample_env 1 2 0 2 7 sample_kernel).1 = 0 ∧
     (mod_dev_ioctl sample_env 1 2 0 2 7 sample_kernel).2.trace =
       sample_kernel.trace ++ [Event.clean_snapshot] ∧
     (mod_dev_ioctl sample_env 1 2 0 2 7 sample_kernel).2.engine =
       sample_env.clean_snapshot sample_kernel.engine) :=
  ⟨by decide, mod_dev_ioctl_clean sample_env 1 2 0 7 sample_kernel (by decide)⟩

/-! ## The termination trampoline -/

/-- C2: `sys_exit_group` has two outcomes, decided by `exit_snapshot()`. When
it returns non-zero, the saved handler `orig_sct_exit_group` is called once
with the registers the trampoline received (the trace grows by the call of
`exit_snapshot` and one call of that handler on `regs`) and the outcome of the
handler is the outcome of the trampoline. When it returns zero, no handler is
called and the trampoline returns `0`. -/
theorem sys_exit_group_outcomes {σ : Type} (env : Env σ) (regs : pt_regs) (k : Kernel σ) :
    ((env.exit_snapshot k.engine).1 ≠ 0 →
      (sys_exit_group env regs k).1 =
        (env.handler k.orig_sct_exit_group regs (env.exit_snapshot k.engine).2).1 ∧
      (sys_exit_group env regs k).2.trace =
        k.trace ++ [Event.exit_snapshot, Event.handler_call k.orig_sct_exit_group regs] ∧
      (sys_exit_group env regs k).2.engine =
        (env.handler k.orig_sct_exit_group regs (env.exit_snapshot k.engine).2).2) ∧
    ((env.exit_snapshot k.engine).1 = 0 →
      (sys_exit_group env regs k).1 = Outcome.returned 0 ∧
      (sys_exit_group env regs k).2.trace = k.trace ++ [Event.exit_snapshot] ∧
      (sys_exit_group env regs k).2.engine = (env.exit_snapshot k.engine).2) := by
  constructor
  · intro h
    have hc : (exit_snapshot env k).1 ≠ 0 := h
    unfold sys_exit_group
    rw [if_pos hc]
    refine ⟨rfl, ?_, rfl⟩
    simp [call_handler, exit_snapshot]
  · intro h
    have hc : ¬ (exit_snapshot env k).1 ≠ 0 := fun hn => hn h
    unfold sys_exit_group
    rw [if_neg hc]
    exact ⟨rfl, rfl, rfl⟩

theorem sys_exit_group_outcomes_witness :
    ((sample_env.exit_snapshot sample_kernel.engine).1 ≠ 0 ∧
      (sys_exit_group sample_env sample_regs sample_kernel).1 = Outcome.no_return ∧
      (sys_exit_group sample_env sample_regs sample_kernel).2.trace =
        [Event.exit_snapshot, Event.handler_call 0 sample_regs]) ∧
    ((sample_env.exit_snapshot armed_kernel.engine).1 = 0 ∧
      (sys_exit_group sample_env sample_regs armed_kernel).1 = Outcome.returned 0 ∧
      (sys_exit_group sample_env sample_regs armed_kernel).2.trace =
        [Event.exit_snapshot]) :=
  ⟨⟨by decide,
    ((sys_exit_group_outcomes sample_env sample_regs sample_kernel).1 (by decide)).1,
    ((sys_exit_group_outcomes sample_env sample_regs sample_kernel).1 (by decide)).2.1⟩,
   ⟨by decide,
    ((sys_exit_group_outcomes sample_env sample_regs armed_kernel).2 (by decide)).1,
    ((sys_exit_group_outcomes sample_env sample_regs armed_kernel).2 (by decide)).2.1⟩⟩

/-! ## The table patcher -/

/-- C10: `patch_syscall_table` changes one entry and keeps the old one. After
the call the `__NR_exit_group` entry is the trampoline, `orig_sct_exit_group`
is the value that entry held before the call, every other entry is unchanged,
bit 16 of CR0 is set and every other bit of CR0 is as before. CR0 is a 64-bit
register. -/
theorem patch_syscall_table_effect {σ : Type} (env : Env σ) (k : Kernel σ)
    (hcr0 : k.cr0 < 2 ^ 64) :
    (patch_syscall_table env k).sct __NR_exit_group = env.sys_exit_group_addr ∧
    (patch_syscall_table env k).orig_sct_exit_group = k.sct __NR_exit_group ∧
    (∀ j, j ≠ __NR_exit_group → (patch_syscall_table env k).sct j = k.sct j) ∧
    (patch_syscall_table env k).cr0.testBit 16 = true ∧
    (∀ i, i ≠ 16 → (patch_syscall_table env k).cr0.testBit i = k.cr0.testBit i) := by
  refine ⟨?_, rfl, ?_, ?_, ?_⟩
  · simp [patch_syscall_table, sct_store, enable_write_protection, disable_write_protection,
      _write_cr0, Kernel.log]
  · intro j hj
    simp [patch_syscall_table, sct_store, enable_write_protection, disable_write_protection,
      _write_cr0, Kernel.log, hj]
  · exact wp_bit_of_set _
  · intro i hi
    exact (other_bits_of_clear_set k.cr0 i hcr0 hi).2

theorem patch_syscall_table_effect_witness :
    sample_kernel.cr0 < 2 ^ 64 ∧
    ((patch_syscall_table sample_env sample_kernel).sct __NR_exit_group =
        sample_env.sys_exit_group_addr ∧
     (patch_syscall_table sample_env sample_kernel).orig_sct_exit_group =
        sample_kernel.sct __NR_exit_group ∧
     (∀ j, j ≠ __NR_exit_group →
        (patch_syscall_table sample_env sample_kernel).sct j = sample_kernel.sct j) ∧
     (patch_syscall_table sample_env sample_kernel).cr0.testBit 16 = true ∧
     (∀ i, i ≠ 16 →
        (patch_syscall_table sample_env sample_kernel).cr0.testBit i =
          sample_kernel.cr0.testBit i)) :=
  ⟨by decide, patch_syscall_table_effect sample_env sample_kernel (by decide)⟩

/-- C3: for every table, `patch_syscall_table` followed by
`unpatch_syscall_table` leaves every entry as it was before the patch; in
particular the `__NR_exit_group` entry is the value it held before. -/
theorem patch_unpatch_restores_table {σ : Type} (env : Env σ) (k : Kernel σ) :
    (∀ j, (unpatch_syscall_table (patch_syscall_table env k)).sct j = k.sct j) ∧
    (unpatch_syscall_table (patch_syscall_table env k)).sct __NR_exit_group =
      k.sct __NR_exit_group := by
  have h : ∀ j, (unpatch_syscall_table (patch_syscall_table env k)).sct j = k.sct j := by
    intro j
    by_cases hj : j = __NR_exit_group
    · simp [unpatch_syscall_table, patch_syscall_table, sct_store, enable_write_protection,
        disable_write_protection, _write_cr0, Kernel.log, hj]
    · simp [unpatch_syscall_table, patch_syscall_table, sct_store, enable_write_protection,
        disable_write_protection, _write_cr0, Kernel.log, hj]
  exact ⟨h, h __NR_exit_group⟩

/-! ## The locator of the system-call table -/

/-- The primary path: a non-null result of the name look-up is returned as it
is, whatever the memory holds and with no step of the scan. -/
theorem get_syscall_table_prefers_symbol {σ : Type} (env : Env σ)
    (hk : env.kallsyms_lookup_name "sys_call_table" ≠ 0) (mem : Nat → Option Nat)
    (fuel : Nat) :
    get_syscall_table { env with mem := mem } fuel =
      Run.done (env.kallsyms_lookup_name "sys_call_table") := by
  unfold get_syscall_table
  rw [if_pos hk]

/-- The fallback path, for a result found before the scan wraps around: it is
the lowest aligned address at or above `_etext & ~7` that holds the address of
`__x64_sys_read` followed by the address of `__x64_sys_write`. -/
theorem get_syscall_table_lowest_without_wrap {σ : Type} (env : Env σ) (fuel p : Nat)
    (hk : env.kallsyms_lookup_name "sys_call_table" = 0)
    (hret : get_syscall_table env fuel = Run.done p)
    (hlo : align8 (env.kallsyms_lookup_name "_etext") ≤ p)
    (hspan : p - align8 (env.kallsyms_lookup_name "_etext") < 8 * (2 ^ 31 - 1))
    (hhi : p + 8 < 2 ^ 64) :
    p % 8 = 0 ∧
    env.mem p = some (env.kallsyms_lookup_name "__x64_sys_read") ∧
    env.mem (p + 8) = some (env.kallsyms_lookup_name "__x64_sys_write") ∧
    ∀ a, a % 8 = 0 → align8 (env.kallsyms_lookup_name "_etext") ≤ a → a < p →
      ¬ (env.mem a = some (env.kallsyms_lookup_name "__x64_sys_read") ∧
         env.mem (a + 8) = some (env.kallsyms_lookup_name "__x64_sys_write")) := by
  unfold get_syscall_table at hret
  rw [if_neg (not_not.mpr hk)] at hret
  exact scan_loop_lowest_without_wrap _ _ _ _ (align8_mod8 _) fuel p hret hlo hspan hhi

/-- The fallback path without the pattern: whenever `sys_call_table` is not
exported and no visited word equal to the address of `__x64_sys_read` is
followed by the address of `__x64_sys_write`, the function returns no value
at all, whatever the fuel. -/
theorem get_syscall_table_never_returns_without_pattern {σ : Type} (env : Env σ)
    (hk : env.kallsyms_lookup_name "sys_call_table" = 0)
    (hno : ∀ i : Int, ¬ pattern_at env.mem (env.kallsyms_lookup_name "__x64_sys_read")
      (env.kallsyms_lookup_name "__x64_sys_write")
      (align8 (env.kallsyms_lookup_name "_etext")) i)
    (fuel p : Nat) : get_syscall_table env fuel ≠ Run.done p := by
  unfold get_syscall_table
  rw [if_neg (not_not.mpr hk)]
  exact scan_loop_never_done _ _ _ _ (align8_mod8 _)
    (fun i h0 h1 => hno i ⟨h0, h1⟩) fuel 0 p

/-- The fallback path on an ordinary layout: the scan reaches the table. -/
theorem get_syscall_table_fallback_finds_table :
    ∀ extra, get_syscall_table table_env (extra + 261647) = Run.done 0xffffffff820002a0 := by
  intro extra
  have hk : ¬ table_env.kallsyms_lookup_name "sys_call_table" ≠ 0 := by decide
  have hd : align8 (table_env.kallsyms_lookup_name "_etext") = 0xffffffff81e01230 := by decide
  have h0 : table_env.kallsyms_lookup_name "__x64_sys_read" = 0xffffffff812d5a10 := by decide
  have h1 : table_env.kallsyms_lookup_name "__x64_sys_write" = 0xffffffff812d5b30 := by decide
  have ha : elem_addr 0xffffffff81e01230 261646 = 0xffffffff820002a0 := by decide
  have hb : elem_addr 0xffffffff81e01230 (int_succ 261646) = 0xffffffff820002a8 := by decide
  have hm : table_env.mem 0xffffffff820002a0 = some 0xffffffff812d5a10 := by decide
  have hn : table_env.mem 0xffffffff820002a8 = some 0xffffffff812d5b30 := by decide
  have hmem : ∀ a, a ≠ 0xffffffff820002a0 → table_env.mem a ≠ some 0xffffffff812d5a10 := by
    intro a hne h
    have hdef : table_env.mem a =
        (if a = 0xffffffff820002a0 then some 0xffffffff812d5a10
         else if a = 0xffffffff820002a8 then some 0xffffffff812d5b30
         else if 0xffffffff80000000 ≤ a then some 0
         else none) := rfl
    rw [hdef, if_neg hne] at h
    split_ifs at h <;> simp at h
  have hskip := scan_loop_skip table_env.mem 0xffffffff812d5a10 0xffffffff812d5b30
    0xffffffff81e01230 (by decide) 261646 (extra + 1) 0 (le_refl 0) (by norm_num)
    (by
      intro j hj
      apply hmem
      unfold elem_addr
      omega)
  have hfuel : extra + 261647 = (extra + 1) + 261646 := by omega
  unfold get_syscall_table
  rw [if_neg hk, hd, h0, h1, hfuel, hskip]
  simp only [Nat.cast_ofNat, zero_add]
  unfold scan_loop
  rw [if_pos (elem_addr_lt_max _ _ (by decide))]
  unfold probe_kernel_read
  rw [ha, hb, hm]
  simp only [if_true]
  rw [hn]
  simp only [if_true]

theorem get_syscall_table_lowest_without_wrap_witness :
    0xffffffff820002a0 % 8 = 0 ∧
    table_env.mem 0xffffffff820002a0 =
      some (table_env.kallsyms_lookup_name "__x64_sys_read") ∧
    table_env.mem (0xffffffff820002a0 + 8) =
      some (table_env.kallsyms_lookup_name "__x64_sys_write") ∧
    ∀ a, a % 8 = 0 → align8 (table_env.kallsyms_lookup_name "_etext") ≤ a →
      a < 0xffffffff820002a0 →
      ¬ (table_env.mem a = some (table_env.kallsyms_lookup_name "__x64_sys_read") ∧
         table_env.mem (a + 8) = some (table_env.kallsyms_lookup_name "__x64_sys_write")) :=
  get_syscall_table_lowest_without_wrap table_env 261647 0xffffffff820002a0 (by decide)
    (get_syscall_table_fallback_finds_table 0) (by decide) (by decide) (by decide)

/-- C7, evaluated where it fails: `sys_call_table` is not exported and no
readable word equals the address of `__x64_sys_read`, so the pattern is
nowhere; whatever the fuel, the scan of `get_syscall_table` has not left its
loop, so it returns nothing, `NULL` included. -/
theorem get_syscall_table_scan_runs_forever :
    no_pattern_env.kallsyms_lookup_name "sys_call_table" = 0 ∧
    (∀ a, no_pattern_env.mem a ≠
      some (no_pattern_env.kallsyms_lookup_name "__x64_sys_read")) ∧
    (∀ fuel, get_syscall_table no_pattern_env fuel = Run.out_of_fuel) := by
  have hk : ¬ no_pattern_env.kallsyms_lookup_name "sys_call_table" ≠ 0 := by decide
  have h0 : no_pattern_env.kallsyms_lookup_name "__x64_sys_read" = 0xffffffff812d5a10 := by
    decide
  have hmem : ∀ a, no_pattern_env.mem a ≠ some 0xffffffff812d5a10 := by
    intro a h
    change (if 0xffffffff80000000 ≤ a then some 0 else none) = some 0xffffffff812d5a10 at h
    split_ifs at h
    simp at h
  refine ⟨by decide, by rw [h0]; exact hmem, ?_⟩
  intro fuel
  unfold get_syscall_table
  rw [if_neg hk, h0]
  exact scan_loop_without_s0 _ _ _ _ (align8_mod8 _) hmem fuel 0

/-- C8, evaluated where it fails: `sys_call_table` is not exported and the
last mapped word before unmapped memory holds the address of
`__x64_sys_read`. The probed read of that word succeeds and the ordinary load
of the next word faults at the unmapped address. -/
theorem get_syscall_table_unprobed_read_faults :
    edge_env.mem 0xffffffff81fffff8 = some (edge_env.kallsyms_lookup_name "__x64_sys_read") ∧
    edge_env.mem 0xffffffff82000000 = none ∧
    (∀ extra, get_syscall_table edge_env (extra + 261562) = Run.fault 0xffffffff82000000) := by
  refine ⟨by decide, by decide, ?_⟩
  intro extra
  have hk : ¬ edge_env.kallsyms_lookup_name "sys_call_table" ≠ 0 := by decide
  have hd : align8 (edge_env.kallsyms_lookup_name "_etext") = 0xffffffff81e01230 := by decide
  have h0 : edge_env.kallsyms_lookup_name "__x64_sys_read" = 0xffffffff812d5a10 := by decide
  have ha : elem_addr 0xffffffff81e01230 261561 = 0xffffffff81fffff8 := by decide
  have hb : elem_addr 0xffffffff81e01230 (int_succ 261561) = 0xffffffff82000000 := by decide
  have hm : edge_env.mem 0xffffffff81fffff8 = some 0xffffffff812d5a10 := by decide
  have hn : edge_env.mem 0xffffffff82000000 = none := by decide
  have hmem : ∀ a, a ≠ 0xffffffff81fffff8 → edge_env.mem a ≠ some 0xffffffff812d5a10 := by
    intro a hne h
    have hdef : edge_env.mem a =
        (if a = 0xffffffff81fffff8 then some 0xffffffff812d5a10
         else if 0xffffffff80000000 ≤ a ∧ a < 0xffffffff82000000 then some 0
         else none) := rfl
    rw [hdef, if_neg hne] at h
    split_ifs at h
    simp at h
  have hskip := scan_loop_skip edge_env.mem 0xffffffff812d5a10
    (edge_env.kallsyms_lookup_name "__x64_sys_write")
    0xffffffff81e01230 (by decide) 261561 (extra + 1) 0 (le_refl 0) (by norm_num)
    (by
      intro j hj
      apply hmem
      unfold elem_addr
      omega)
  have hfuel : extra + 261562 = (extra + 1) + 261561 := by omega
  unfold get_syscall_table
  rw [if_neg hk, hd, h0, hfuel, hskip]
  simp only [Nat.cast_ofNat, zero_add]
  unfold scan_loop
  rw [if_pos (elem_addr_lt_max _ _ (by decide))]
  unfold probe_kernel_read
  rw [ha, hb, hm]
  simp only [if_true]
  rw [hn]

/-- C9, evaluated where it fails: `sys_call_table` is not exported and the
pattern lies at `0x10000` only. The scan starts at `_etext & ~7`, runs through
the top of the address space, wraps around to address `0` and returns
`0x10000`, an address below `_etext & ~7`. -/
theorem get_syscall_table_result_below_etext :
    (∀ extra, get_syscall_table low_env (extra + 264510907) = Run.done 0x10000) ∧
    0x10000 < align8 (low_env.kallsyms_lookup_name "_etext") := by
  refine ⟨?_, by decide⟩
  intro extra
  have hk : ¬ low_env.kallsyms_lookup_name "sys_call_table" ≠ 0 := by decide
  have hd : align8 (low_env.kallsyms_lookup_name "_etext") = 0xffffffff81e01230 := by decide
  have h0 : low_env.kallsyms_lookup_name "__x64_sys_read" = 0xffffffff812d5a10 := by decide
  have h1 : low_env.kallsyms_lookup_name "__x64_sys_write" = 0xffffffff812d5b30 := by decide
  have ha : elem_addr 0xffffffff81e01230 264510906 = 0x10000 := by decide
  have hb : elem_addr 0xffffffff81e01230 (int_succ 264510906) = 0x10008 := by decide
  have hm : low_env.mem 0x10000 = some 0xffffffff812d5a10 := by decide
  have hn : low_env.mem 0x10008 = some 0xffffffff812d5b30 := by decide
  have hmem : ∀ a, a ≠ 0x10000 → low_env.mem a ≠ some 0xffffffff812d5a10 := by
    intro a hne h
    have hdef : low_env.mem a =
        (if a = 0x10000 then some 0xffffffff812d5a10
         else if a = 0x10008 then some 0xffffffff812d5b30
         else if 0xffffffff80000000 ≤ a then some 0
         else none) := rfl
    rw [hdef, if_neg hne] at h
    split_ifs at h <;> simp at h
  have hskip := scan_loop_skip low_env.mem 0xffffffff812d5a10 0xffffffff812d5b30
    0xffffffff81e01230 (by decide) 264510906 (extra + 1) 0 (le_refl 0) (by norm_num)
    (by
      intro j hj
      apply hmem
      unfold elem_addr
      omega)
  have hfuel : extra + 264510907 = (extra + 1) + 264510906 := by omega
  unfold get_syscall_table
  rw [if_neg hk, hd, h0, h1, hfuel, hskip]
  simp only [Nat.cast_ofNat, zero_add]
  unfold scan_loop
  rw [if_pos (elem_addr_lt_max _ _ (by decide))]
  unfold probe_kernel_read
  rw [ha, hb, hm]
  simp only [if_true]
  rw [hn]
  simp only [if_true]

/-! ## Module set-up -/

/-- C5: installation of the probes is all-or-nothing. When the set-up reaches
the probes (the table was located and the device was registered) and
`try_hook` fails for one of `do_wp_page`, `page_add_new_anon_rmap` and
`do_exit`, `mod_init` returns `-ENOENT`, no probe is left installed, every
entry of the table is as before the call, and the trace shows the order: a
probe that was installed is followed by `unhook_all`, and `unhook_all` comes
before the table is unpatched. -/
theorem mod_init_probe_failure_unwinds {σ : Type} (env : Env σ) (fuel : Nat) (k : Kernel σ)
    (p : Nat) (hkobj : env.kobject_create_and_add ≠ 0) (hchr : 0 ≤ env.register_chrdev)
    (hclass : IS_ERR env.class_create = false) (hdev : IS_ERR env.device_create = false)
    (htab : get_syscall_table env fuel = Run.done p) (hp : p ≠ 0) (hhooks : k.hooks = [])
    (hfail : env.can_hook "do_wp_page" = false ∨
      env.can_hook "page_add_new_anon_rmap" = false ∨ env.can_hook "do_exit" = false) :
    ∃ kf, mod_init env fuel k = Run.done (-ENOENT, kf) ∧
      kf.hooks = [] ∧
      (∀ j, kf.sct j = k.sct j) ∧
      (kf.trace = k.trace ++ [Event.patch_syscall_table,
          Event.try_hook "do_wp_page" false, Event.unpatch_syscall_table] ∨
       kf.trace = k.trace ++ [Event.patch_syscall_table,
          Event.try_hook "do_wp_page" true, Event.try_hook "page_add_new_anon_rmap" false,
          Event.unhook_all, Event.unpatch_syscall_table] ∨
       kf.trace = k.trace ++ [Event.patch_syscall_table,
          Event.try_hook "do_wp_page" true, Event.try_hook "page_add_new_anon_rmap" true,
          Event.try_hook "do_exit" false, Event.unhook_all, Event.unpatch_syscall_table]) := by
  have hinit := mod_init_reaches_hooks env fuel k p hkobj hchr hclass hdev htab hp
  obtain ⟨hr, hh, hs, ht⟩ := mod_init_hooks_after_patch_failure env
    { k with mod_kobj := env.kobject_create_and_add,
             mod_major_num := env.register_chrdev,
             mod_class := env.class_create,
             mod_device := env.device_create,
             syscall_table_ptr := p } hhooks hfail
  exact ⟨_, by rw [hinit, ← hr], hh, hs, ht⟩

theorem mod_init_probe_failure_unwinds_witness :
    (second_probe_fail_env.kobject_create_and_add ≠ 0 ∧
     0 ≤ second_probe_fail_env.register_chrdev ∧
     IS_ERR second_probe_fail_env.class_create = false ∧
     IS_ERR second_probe_fail_env.device_create = false ∧
     get_syscall_table second_probe_fail_env 0 = Run.done 0xffffffff820002a0 ∧
     0xffffffff820002a0 ≠ 0 ∧
     sample_kernel.hooks = [] ∧
     second_probe_fail_env.can_hook "page_add_new_anon_rmap" = false) ∧
    ∃ kf, mod_init second_probe_fail_env 0 sample_kernel = Run.done (-ENOENT, kf) ∧
      kf.hooks = [] ∧
      (∀ j, kf.sct j = sample_kernel.sct j) ∧
      (kf.trace = sample_kernel.trace ++ [Event.patch_syscall_table,
          Event.try_hook "do_wp_page" false, Event.unpatch_syscall_table] ∨
       kf.trace = sample_kernel.trace ++ [Event.patch_syscall_table,
          Event.try_hook "do_wp_page" true, Event.try_hook "page_add_new_anon_rmap" false,
          Event.unhook_all, Event.unpatch_syscall_table] ∨
       kf.trace = sample_kernel.trace ++ [Event.patch_syscall_table,
          Event.try_hook "do_wp_page" true, Event.try_hook "page_add_new_anon_rmap" true,
          Event.try_hook "do_exit" false, Event.unhook_all, Event.unpatch_syscall_table]) :=
  ⟨⟨by decide, by decide, by decide, by decide, by decide, by decide, rfl, by decide⟩,
   mod_init_probe_failure_unwinds second_probe_fail_env 0 sample_kernel 0xffffffff820002a0
     (by decide) (by decide) (by decide) (by decide) (by decide) (by decide) rfl
     (Or.inr (Or.inl (by decide)))⟩

/-- C4, evaluated where it fails: every step of the set-up succeeds, the three
probes are installed, and `snapshot_initialize_k_funcs` returns `-ENOENT`.
`mod_init` returns that status, the three probes are still installed and the
`__NR_exit_group` entry still holds the trampoline, not the value it had
before the call. -/
theorem mod_init_k_funcs_failure_not_unwound :
    ∃ kf, mod_init kfuncs_fail_env 0 sample_kernel = Run.done (-ENOENT, kf) ∧
      kf.hooks = [("do_wp_page", "wp_page_hook"),
        ("page_add_new_anon_rmap", "do_anonymous_hook"), ("do_exit", "exit_hook")] ∧
      kf.sct __NR_exit_group = kfuncs_fail_env.sys_exit_group_addr ∧
      kf.sct __NR_exit_group ≠ sample_kernel.sct __NR_exit_group ∧
      kf.trace = [Event.patch_syscall_table, Event.try_hook "do_wp_page" true,
        Event.try_hook "page_add_new_anon_rmap" true, Event.try_hook "do_exit" true,
        Event.snapshot_initialize_k_funcs] := by
  have hinit := mod_init_reaches_hooks kfuncs_fail_env 0 sample_kernel 0xffffffff820002a0
    (by decide) (by decide) (by decide) (by decide) (by decide) (by decide)
  refine ⟨_, hinit, ?_, ?_, ?_, ?_⟩
  · decide
  · decide
  · decide
  · decide

end AflSnapshot
